import Mathlib

/-!
Verification of the query-execution helper and dashboard render pass of
`src/Streamlit_dashboard.py` (a Streamlit dashboard issuing AWS Athena
queries), as a shallow embedding.

The Python function `run_athena_query(query, database, s3_output)`:
  1. submits the query via `client.start_query_execution` (boto3 may raise);
  2. loops `while True`, calling `client.get_query_execution`, breaking when
     the state is one of SUCCEEDED / FAILED / CANCELLED, sleeping 1 second
     between consecutive checks;
  3. on SUCCEEDED, reads `stats['QueryExecution']['ResultConfiguration']
     ['OutputLocation']` and calls `pd.read_csv` on it (which may raise);
     otherwise calls `st.error(...)` and returns `pd.DataFrame()`.

The dashboard layout runs a sequence of slots; each slot calls
`run_athena_query` and renders the frame only under `if not df.empty:`.

The embedding makes the external service explicit (an `AthenaService`
record of behaviours), makes Python exceptions explicit (`Outcome.exn`),
and counts the observable effects (status checks, sleeps, fetches,
`st.error` messages) so the claims about them can be stated.
The unbounded `while True` loop is modelled with explicit fuel; running
out of fuel is reported as `Outcome.diverged`, and divergence of the real
loop corresponds to `diverged` for every fuel value.
-/

/-- A scalar cell of a parsed result table: pandas stores a column either as
integers or as strings (we model the two dtypes the data of the dashboard uses). -/
inductive Cell where
  | vInt (n : Int)
  | vStr (s : String)
deriving DecidableEq

/-- Is the cell a string (categorical) value? -/
def Cell.isStr : Cell → Bool
  | .vInt _ => false
  | .vStr _ => true

/-- The `astype(str)` conversion of one cell: integers print in decimal. -/
def Cell.asStr : Cell → Cell
  | .vInt n => .vStr (toString n)
  | .vStr s => .vStr s

/-- A pandas DataFrame as the dashboard uses it: ordered column names and a
list of rows of cells. -/
structure DataFrame where
  cols : List String
  rows : List (List Cell)
deriving DecidableEq

/-- The pandas `df.empty` property: true iff either axis has length zero. -/
def DataFrame.empty (df : DataFrame) : Bool :=
  df.rows.isEmpty || df.cols.isEmpty

/-- The value `pd.DataFrame()` returned on the failure path: no columns and
no rows. -/
def emptyDataFrame : DataFrame :=
  { cols := [], rows := [] }

/-- Extract the cells of the named column, in row order (empty if the column
is absent). -/
def DataFrame.column (df : DataFrame) (name : String) : List Cell :=
  match df.cols.indexOf? name with
  | none => []
  | some j => df.rows.map (fun r => r.getD j (Cell.vStr ""))

/-- One response of `client.get_query_execution`: the fields the code reads,
`['Status']['State']`, `['Status']['StateChangeReason']` and
`['ResultConfiguration']['OutputLocation']`. -/
structure StatusResponse where
  state : String
  stateChangeReason : String
  outputLocation : String

/-- The terminal-state test of line 39 of the source:
`status in ['SUCCEEDED', 'FAILED', 'CANCELLED']`. -/
def isTerminalState (s : String) : Bool :=
  s = "SUCCEEDED" || s = "FAILED" || s = "CANCELLED"

/-- The external Athena service and S3 storage, as the behaviours the code
can observe: `submit` is `start_query_execution` (returning a
QueryExecutionId or raising), `getStatus` is `get_query_execution` for a
given execution id at the n-th poll, and `storage` maps an S3 URI to the
object stored there (if any). -/
structure AthenaService where
  submit : String → String → String → Except String String
  getStatus : String → Nat → StatusResponse
  storage : String → Option String

/-- Split a character list at every occurrence of the separator, keeping
empty groups (the semantics of splitting a delimited text field). -/
def splitOnChar (sep : Char) : List Char → List (List Char)
  | [] => [[]]
  | c :: cs =>
      match splitOnChar sep cs with
      | [] => [[]]
      | g :: gs => if c = sep then [] :: g :: gs else (c :: g) :: gs

/-- Accumulate a decimal digit list into a natural number. -/
def charsToNatAux (acc : Nat) : List Char → Nat
  | [] => acc
  | c :: cs => charsToNatAux (acc * 10 + (c.toNat - 48)) cs

/-- Parse an optionally negated run of decimal digits as an integer; any
other shape is not an integer field. -/
def parseIntChars : List Char → Option Int
  | [] => none
  | '-' :: cs =>
      if cs ≠ [] ∧ cs.all Char.isDigit then some (-(charsToNatAux 0 cs : Int)) else none
  | cs => if cs.all Char.isDigit then some ((charsToNatAux 0 cs : Nat) : Int) else none

/-- Does the string parse as an integer (pandas int64 dtype inference)? -/
def isIntString (s : String) : Bool :=
  (parseIntChars s.data).isSome

/-- Type one raw field under the column dtype chosen by inference. -/
def toCell (colInt : Bool) (s : String) : Cell :=
  if colInt then
    match parseIntChars s.data with
    | some n => Cell.vInt n
    | none => Cell.vStr s
  else Cell.vStr s

/-- Column-wise dtype inference over the raw fields: a column is integer
iff every one of its fields parses as an integer, as pandas infers int64. -/
def typeRaw (cols : List String) (raw : List (List String)) : DataFrame :=
  let intCol : Nat → Bool := fun j => raw.all (fun r => isIntString (r.getD j ""))
  { cols := cols,
    rows := raw.map (fun r => r.enum.map (fun p => toCell (intCol p.1) p.2)) }

/-- Non-blank lines of a file, as pandas skips blank lines. -/
def splitLines (s : String) : List String :=
  ((splitOnChar '\n' s.data).map List.asString).filter (fun l => l ≠ "")

/-- Split one line into its comma-separated fields. -/
def splitFields (line : String) : List String :=
  (splitOnChar ',' line.data).map List.asString

/-- Parse comma-separated content: the header row gives the column names,
the remaining rows the data; a file with no content at all is an error. -/
def parseCsv (content : String) : Except String DataFrame :=
  match splitLines content with
  | [] => Except.error "EmptyDataError: No columns to parse from file"
  | header :: rest =>
      Except.ok (typeRaw (splitFields header) (rest.map splitFields))

/-- The `pd.read_csv(path)` call: fetch the object at the URI from storage
(raising if it is absent) and parse it as comma-separated values. -/
def read_csv (svc : AthenaService) (path : String) : Except String DataFrame :=
  match svc.storage path with
  | none => Except.error ("FileNotFoundError: " ++ path)
  | some content => parseCsv content

/-- What `run_athena_query` does to its caller: return a frame normally,
let a Python exception propagate, or never return (the unbounded poll
loop observed up to the given fuel). -/
inductive Outcome where
  | ok (df : DataFrame)
  | exn (msg : String)
  | diverged
deriving DecidableEq

/-- One call of `run_athena_query` together with its observable effects:
how many `get_query_execution` calls, `time.sleep(1)` calls and
`pd.read_csv` calls it made, and which `st.error` messages it emitted. -/
structure ExecResult where
  outcome : Outcome
  statusChecks : Nat
  sleeps : Nat
  fetches : Nat
  errors : List String
deriving DecidableEq

/-- The `while True` poll loop of lines 36-41, with fuel: at poll index `i`
call `get_query_execution`; break when the state is terminal, else
`time.sleep(1)` and repeat. Returns the terminal response (or `none` when
the fuel runs out), the number of status checks made, and the number of
sleeps made. -/
def pollLoop (st : Nat → StatusResponse) :
    Nat → Nat → Option StatusResponse × Nat × Nat
  | _, 0 => (none, 0, 0)
  | i, fuel + 1 =>
      if isTerminalState (st i).state then (some (st i), 1, 0)
      else
        match pollLoop st (i + 1) fuel with
        | (r, c, s) => (r, c + 1, s + 1)

/-- The embedding of `run_athena_query(query, database, s3_output)`:
submit, poll to a terminal state, then on SUCCEEDED read the CSV at the
output location reported in the terminal status response, and otherwise
emit `st.error` and return `pd.DataFrame()`. Exceptions of the submit call
and of `pd.read_csv` propagate (there is no try/except in the source). -/
def run_athena_query (svc : AthenaService) (query database s3_output : String)
    (fuel : Nat) : ExecResult :=
  match svc.submit query database s3_output with
  | Except.error e =>
      { outcome := .exn e, statusChecks := 0, sleeps := 0, fetches := 0, errors := [] }
  | Except.ok qid =>
      match pollLoop (svc.getStatus qid) 0 fuel with
      | (none, checks, slps) =>
          { outcome := .diverged, statusChecks := checks, sleeps := slps,
            fetches := 0, errors := [] }
      | (some stats, checks, slps) =>
          if stats.state = "SUCCEEDED" then
            match read_csv svc stats.outputLocation with
            | Except.ok df =>
                { outcome := .ok df, statusChecks := checks, sleeps := slps,
                  fetches := 1, errors := [] }
            | Except.error e =>
                { outcome := .exn e, statusChecks := checks, sleeps := slps,
                  fetches := 1, errors := [] }
          else
            { outcome := .ok emptyDataFrame, statusChecks := checks, sleeps := slps,
              fetches := 0,
              errors := ["Query Failed: " ++ stats.stateChangeReason] }

/-- The per-slot render guard of the dashboard: a slot renders its chart
iff the frame returned for it is non-empty (`if not df.empty:`); a slot
whose query raised or never returned renders nothing. -/
def slotRenders (svc : AthenaService) (q db s3 : String) (fuel : Nat) : Bool :=
  match (run_athena_query svc q db s3 fuel).outcome with
  | Outcome.ok df => !df.empty
  | _ => false

/-- Result of one render pass over the catalog: the per-slot rendered
flags, in order; `aborted` when an uncaught exception stopped the script,
`blocked` when a poll loop never returned — in both cases the flags cover
only the slots that completed. -/
inductive PassResult where
  | done (flags : List Bool)
  | aborted (flags : List Bool) (msg : String)
  | blocked (flags : List Bool)
deriving DecidableEq

/-- Prepend the flag of one completed slot to a pass result. -/
def consFlag (b : Bool) : PassResult → PassResult
  | .done f => .done (b :: f)
  | .aborted f e => .aborted (b :: f) e
  | .blocked f => .blocked (b :: f)

/-- The dashboard render pass (the straight-line layout of lines 62-175):
run the query of each slot in order with the shared configuration, render it iff
the frame is non-empty, and stop the whole script if a slot raises or
blocks. -/
def renderPass (svc : AthenaService) (db s3 : String) (fuel : Nat) :
    List String → PassResult
  | [] => .done []
  | q :: qs =>
      match (run_athena_query svc q db s3 fuel).outcome with
      | Outcome.exn e => .aborted [] e
      | Outcome.diverged => .blocked []
      | Outcome.ok df => consFlag (!df.empty) (renderPass svc db s3 fuel qs)

/-- A service whose every query reaches a terminal state on the first
status check: submission accepts the query string itself as the execution
id, and the first (and only) status response for a query is `beh q`. -/
def oneShotService (beh : String → StatusResponse) (store : String → Option String) :
    AthenaService :=
  { submit := fun q _ _ => Except.ok q,
    getStatus := fun q _ => beh q,
    storage := store }

/-- Modelled from the spec: the second, near-duplicate
dashboard script is not under `src/`; per the spec it renders the
Top Performing Stores result as a categorical bar chart after coercing the
numeric identifier column to text (`df[col] = df[col].astype(str)`), so
large integer IDs are not drawn as a continuous numeric scale. This is
that column-wise `astype(str)` normalization. -/
def astypeStr (df : DataFrame) (name : String) : DataFrame :=
  match df.cols.indexOf? name with
  | none => df
  | some j =>
      { cols := df.cols,
        rows := df.rows.map (fun r =>
          r.enum.map (fun p => if p.1 = j then p.2.asStr else p.2)) }

/-- The example stores frame of the spec: integer `store_id` values
101, 215, 3 with a revenue column. -/
def exStoresDf : DataFrame :=
  { cols := ["store_id", "revenue"],
    rows := [[Cell.vInt 101, Cell.vInt 5],
             [Cell.vInt 215, Cell.vInt 7],
             [Cell.vInt 3, Cell.vInt 9]] }

/-- A service whose submit call is rejected (boto3 raises, e.g. an access
denial): used to exercise the submission-rejection path. -/
def badSubmitSvc : AthenaService :=
  { submit := fun _ _ _ => Except.error "ClientError: AccessDeniedException",
    getStatus := fun _ _ => ⟨"RUNNING", "", ""⟩,
    storage := fun _ => none }

/-- A service where every call succeeds and every storage read parses:
submission accepted, immediate SUCCEEDED, readable content everywhere. -/
def goodSvc : AthenaService :=
  { submit := fun _ _ _ => Except.ok "qid-g",
    getStatus := fun _ _ => ⟨"SUCCEEDED", "", "s3://out/g.csv"⟩,
    storage := fun _ => some "a\n1" }

/-- A service that reports RUNNING for the first two status checks and
SUCCEEDED on the third, with the result file at the reported location. -/
def svcPollTwice : AthenaService :=
  { submit := fun _ _ _ => Except.ok "qid-runs",
    getStatus := fun _ i =>
      if i < 2 then ⟨"RUNNING", "", ""⟩
      else ⟨"SUCCEEDED", "", "s3://dku-project/Athena Output/res.csv"⟩,
    storage := fun p =>
      if p = "s3://dku-project/Athena Output/res.csv" then
        some "hour_of_day,total_transactions\n9,120\n10,80"
      else none }

/-- A service that reports RUNNING once and then FAILED with a reason. -/
def svcFailAfterOne : AthenaService :=
  { submit := fun _ _ _ => Except.ok "qid-fail",
    getStatus := fun _ i =>
      if i < 1 then ⟨"RUNNING", "", ""⟩
      else ⟨"FAILED", "HIVE_BAD_DATA: line 17: mismatched column count", ""⟩,
    storage := fun _ => none }

/-- A service that reports RUNNING on every status check, forever. -/
def svcAlwaysRunning : AthenaService :=
  { submit := fun _ _ _ => Except.ok "qid-stuck",
    getStatus := fun _ _ => ⟨"RUNNING", "", ""⟩,
    storage := fun _ => none }

/-- A service whose every query is CANCELLED immediately. -/
def svcCancelled : AthenaService :=
  { submit := fun _ _ _ => Except.ok "qid-c",
    getStatus := fun _ _ => ⟨"CANCELLED", "Query cancelled by user", ""⟩,
    storage := fun _ => none }

/-- A service that reports SUCCEEDED at once with the result file under a
service-generated name, distinct from the requested staging prefix (which
holds no object at all). -/
def svc8 : AthenaService :=
  { submit := fun _ _ _ => Except.ok "qid-ok",
    getStatus := fun _ _ => ⟨"SUCCEEDED", "", "s3://dku-project/Athena Output/abc-123.csv"⟩,
    storage := fun p =>
      if p = "s3://dku-project/Athena Output/abc-123.csv" then
        some "payment_method,revenue\ncard,900\ncash,450"
      else none }

/-- Behaviour table for a three-slot render pass: the daily and city
queries succeed with data, the region query fails. -/
def behWit : String → StatusResponse := fun q =>
  if q = "q-daily" then ⟨"SUCCEEDED", "", "s3://out/daily.csv"⟩
  else if q = "q-region" then ⟨"FAILED", "SYNTAX_ERROR: Table not found", ""⟩
  else ⟨"SUCCEEDED", "", "s3://out/city.csv"⟩

/-- Storage for the three-slot render pass. -/
def storeWit : String → Option String := fun p =>
  if p = "s3://out/daily.csv" then some "day,revenue\n2024-01-01,100\n2024-01-02,150"
  else if p = "s3://out/city.csv" then some "city,customer_count\nPune,40\nDelhi,25"
  else none

/-- A service whose query succeeds but whose result file holds only a
header row, so the parsed frame has zero rows. -/
def svcEmptyResult : AthenaService :=
  oneShotService (fun _ => ⟨"SUCCEEDED", "", "s3://out/empty.csv"⟩)
    (fun p => if p = "s3://out/empty.csv" then some "day,revenue" else none)

/-! ### Poll-loop lemmas -/

/-- If no status response is ever terminal, the poll loop consumes all its
fuel, making one status check and one sleep per unit of fuel, and returns
no terminal response. -/
theorem pollLoop_never_terminal (st : Nat → StatusResponse)
    (h : ∀ n, isTerminalState (st n).state = false) :
    ∀ fuel i, pollLoop st i fuel = (none, fuel, fuel) := by
  intro fuel
  induction fuel with
  | zero => intro i; rfl
  | succ f ih =>
      intro i
      simp only [pollLoop, h i, Bool.false_eq_true, if_false, ih (i + 1)]

/-- If the first terminal response from index `j` onward occurs at offset
`m`, and the fuel exceeds `m`, the poll loop stops there: it makes exactly
`m + 1` status checks and `m` sleeps and returns that response. -/
theorem pollLoop_first_terminal (st : Nat → StatusResponse) :
    ∀ (m j fuel : Nat),
      (∀ i, i < m → isTerminalState (st (j + i)).state = false) →
      isTerminalState (st (j + m)).state = true →
      m < fuel →
      pollLoop st j fuel = (some (st (j + m)), m + 1, m) := by
  intro m
  induction m with
  | zero =>
      intro j fuel hpre hterm hf
      obtain ⟨f, rfl⟩ : ∃ f, fuel = f + 1 := ⟨fuel - 1, by omega⟩
      rw [Nat.add_zero] at hterm
      simp [pollLoop, hterm]
  | succ m ih =>
      intro j fuel hpre hterm hf
      obtain ⟨f, rfl⟩ : ∃ f, fuel = f + 1 := ⟨fuel - 1, by omega⟩
      have h0 : isTerminalState (st j).state = false := by
        have h := hpre 0 (Nat.succ_pos m)
        rwa [Nat.add_zero] at h
      have hpre1 : ∀ i, i < m → isTerminalState (st (j + 1 + i)).state = false := by
        intro i hi
        have h := hpre (i + 1) (by omega)
        have he : j + (i + 1) = j + 1 + i := by omega
        rwa [he] at h
      have hterm1 : isTerminalState (st (j + 1 + m)).state = true := by
        have he : j + (m + 1) = j + 1 + m := by omega
        rwa [he] at hterm
      have ihr := ih (j + 1) f hpre1 hterm1 (by omega)
      have he : j + 1 + m = j + (m + 1) := by omega
      rw [he] at ihr
      simp only [pollLoop, h0, Bool.false_eq_true, if_false, ihr]

/-! ### Behaviour of run_athena_query on each path -/

/-- When the submit call is rejected, the exception propagates: no status
check, no sleep, no fetch, no side-channel message. -/
theorem run_submit_error (svc : AthenaService) (q db s3 : String) (fuel : Nat)
    (e : String) (h : svc.submit q db s3 = Except.error e) :
    run_athena_query svc q db s3 fuel =
      { outcome := .exn e, statusChecks := 0, sleeps := 0, fetches := 0, errors := [] } := by
  simp only [run_athena_query, h]

/-- When submission succeeds and the first terminal status, at poll index
`k` within the fuel, is SUCCEEDED, the call makes `k + 1` status checks and
`k` sleeps and then fetches the file at the output location of the terminal
status response exactly once. -/
theorem run_poll_succeeded (svc : AthenaService) (q db s3 qid : String) (k fuel : Nat)
    (hsub : svc.submit q db s3 = Except.ok qid)
    (hpre : ∀ i, i < k → isTerminalState (svc.getStatus qid i).state = false)
    (hst : (svc.getStatus qid k).state = "SUCCEEDED")
    (hk : k < fuel) :
    run_athena_query svc q db s3 fuel =
      match read_csv svc (svc.getStatus qid k).outputLocation with
      | Except.ok df =>
          { outcome := .ok df, statusChecks := k + 1, sleeps := k, fetches := 1, errors := [] }
      | Except.error e =>
          { outcome := .exn e, statusChecks := k + 1, sleeps := k, fetches := 1, errors := [] } := by
  have hterm : isTerminalState (svc.getStatus qid k).state = true := by
    simp [isTerminalState, hst]
  have hp := pollLoop_first_terminal (svc.getStatus qid) k 0 fuel
    (by intro i hi; rw [Nat.zero_add]; exact hpre i hi)
    (by rwa [Nat.zero_add]) hk
  rw [Nat.zero_add] at hp
  simp only [run_athena_query, hsub, hp, hst, if_true]

/-- When submission succeeds and the first terminal status, at poll index
`k` within the fuel, is terminal but not SUCCEEDED, the call emits
`st.error` with the StateChangeReason of the service and returns
`pd.DataFrame()`, with `k + 1` status checks, `k` sleeps and no fetch. -/
theorem run_poll_not_succeeded (svc : AthenaService) (q db s3 qid : String) (k fuel : Nat)
    (hsub : svc.submit q db s3 = Except.ok qid)
    (hpre : ∀ i, i < k → isTerminalState (svc.getStatus qid i).state = false)
    (hterm : isTerminalState (svc.getStatus qid k).state = true)
    (hns : (svc.getStatus qid k).state ≠ "SUCCEEDED")
    (hk : k < fuel) :
    run_athena_query svc q db s3 fuel =
      { outcome := .ok emptyDataFrame, statusChecks := k + 1, sleeps := k, fetches := 0,
        errors := ["Query Failed: " ++ (svc.getStatus qid k).stateChangeReason] } := by
  have hp := pollLoop_first_terminal (svc.getStatus qid) k 0 fuel
    (by intro i hi; rw [Nat.zero_add]; exact hpre i hi)
    (by rwa [Nat.zero_add]) hk
  rw [Nat.zero_add] at hp
  simp only [run_athena_query, hsub, hp, hns, if_false]

/-- When submission succeeds but no status response is ever terminal, the
call diverges: every unit of fuel is spent on one more status check and one
more sleep, and no fetch or message ever happens. -/
theorem run_never_terminal (svc : AthenaService) (q db s3 qid : String) (fuel : Nat)
    (hsub : svc.submit q db s3 = Except.ok qid)
    (h : ∀ i, isTerminalState (svc.getStatus qid i).state = false) :
    run_athena_query svc q db s3 fuel =
      { outcome := .diverged, statusChecks := fuel, sleeps := fuel, fetches := 0,
        errors := [] } := by
  have hp := pollLoop_never_terminal (svc.getStatus qid) h fuel 0
  simp only [run_athena_query, hsub, hp]

/-! ### One-shot service and render-pass lemmas -/

/-- A query against a one-shot service whose status is SUCCEEDED and whose
result file parses: the call returns that frame after one status check,
no sleep and one fetch. -/
theorem run_oneShot_succeeded (beh : String → StatusResponse) (store : String → Option String)
    (q db s3 : String) (fuel : Nat) (df : DataFrame)
    (hst : (beh q).state = "SUCCEEDED")
    (hread : read_csv (oneShotService beh store) (beh q).outputLocation = Except.ok df)
    (hf : 0 < fuel) :
    run_athena_query (oneShotService beh store) q db s3 fuel =
      { outcome := .ok df, statusChecks := 1, sleeps := 0, fetches := 1, errors := [] } := by
  have h := run_poll_succeeded (oneShotService beh store) q db s3 q 0 fuel rfl
    (fun i hi => absurd hi (Nat.not_lt_zero i)) hst hf
  rw [h]
  have hgs : (oneShotService beh store).getStatus q 0 = beh q := rfl
  rw [hgs, hread]

/-- A query against a one-shot service whose status is FAILED: the call
returns the empty frame and the reason message after one status check. -/
theorem run_oneShot_failed (beh : String → StatusResponse) (store : String → Option String)
    (q db s3 : String) (fuel : Nat)
    (hst : (beh q).state = "FAILED") (hf : 0 < fuel) :
    run_athena_query (oneShotService beh store) q db s3 fuel =
      { outcome := .ok emptyDataFrame, statusChecks := 1, sleeps := 0, fetches := 0,
        errors := ["Query Failed: " ++ (beh q).stateChangeReason] } :=
  run_poll_not_succeeded (oneShotService beh store) q db s3 q 0 fuel rfl
    (fun i hi => absurd hi (Nat.not_lt_zero i))
    (by show isTerminalState (beh q).state = true; simp [isTerminalState, hst])
    (by show (beh q).state ≠ "SUCCEEDED"; simp [hst]) hf

/-- If every slot of the catalog yields a non-empty frame, the render pass
completes and renders every slot. -/
theorem renderPass_all_rendered (svc : AthenaService) (db s3 : String) (fuel : Nat) :
    ∀ qs : List String,
      (∀ q ∈ qs, ∃ df, (run_athena_query svc q db s3 fuel).outcome = Outcome.ok df
          ∧ df.empty = false) →
      renderPass svc db s3 fuel qs = PassResult.done (qs.map (fun _ => true)) := by
  intro qs
  induction qs with
  | nil => intro _; rfl
  | cons q qs ih =>
      intro h
      obtain ⟨df, hdf, hne⟩ := h q (List.mem_cons_self q qs)
      have ht := ih (fun p hp => h p (List.mem_cons_of_mem q hp))
      simp [renderPass, hdf, ht, consFlag, hne]

/-- Reading the cell at index `j` after the index-`j` `astype(str)` map is
the `asStr` conversion of the original cell at `j`. -/
theorem enumMap_getD_asStr (r : List Cell) (j : Nat) :
    (r.enum.map (fun p => if p.1 = j then p.2.asStr else p.2)).getD j (Cell.vStr "")
      = (r.getD j (Cell.vStr "")).asStr := by
  rw [List.getD_eq_getElem?_getD, List.getD_eq_getElem?_getD, List.getElem?_map,
    List.getElem?_enum]
  cases h : r[j]? with
  | none => rfl
  | some c => simp

/-! ### Claims -/

/-- C1 (counterexample): the claim states run_athena_query never raises to
its caller and signals every failure by an empty ResultSet plus a message.
The source wraps nothing in try/except, so a rejected submit call
propagates its exception: at this concrete service the call raises, returns
no frame and reports nothing. -/
theorem C1_counterexample :
    (run_athena_query badSubmitSvc "SELECT 1" "ccdataset" "s3://dku-project/Athena Output/" 5).outcome
      = Outcome.exn "ClientError: AccessDeniedException" := rfl

/-- C1 (amended): run_athena_query never raises to its caller provided the
submit call is not rejected and every attempted result-file read parses; a
terminal FAILED or CANCELLED status is signalled by an empty frame plus a
side-channel message, never by an exception. (The unamended claim fails
because submit-call and read-call exceptions propagate.) -/
theorem C1_no_raise_when_submit_and_read_ok (svc : AthenaService) (q db s3 : String)
    (fuel : Nat) (m : String)
    (hsub : ∀ e, svc.submit q db s3 ≠ Except.error e)
    (hread : ∀ p e, read_csv svc p ≠ Except.error e) :
    (run_athena_query svc q db s3 fuel).outcome ≠ Outcome.exn m := by
  intro hcontra
  rcases hs : svc.submit q db s3 with e | qid
  · exact hsub e hs
  · rcases hp : pollLoop (svc.getStatus qid) 0 fuel with ⟨_ | stats, c, s⟩
    · simp [run_athena_query, hs, hp] at hcontra
    · by_cases hss : stats.state = "SUCCEEDED"
      · rcases hr : read_csv svc stats.outputLocation with e | df
        · exact hread stats.outputLocation e hr
        · simp [run_athena_query, hs, hp, hss, hr] at hcontra
      · simp [run_athena_query, hs, hp, hss] at hcontra

/-- C1 (witness): a concrete service where submission and every read
succeed, at which the amended theorem applies. -/
theorem C1_witness :
    (run_athena_query goodSvc "SELECT 1" "ccdataset" "s3://out/" 3).outcome
      ≠ Outcome.exn "boom" :=
  C1_no_raise_when_submit_and_read_ok goodSvc "SELECT 1" "ccdataset" "s3://out/" 3 "boom"
    (fun e h => Except.noConfusion h)
    (fun p e h => by
      have hr : read_csv goodSvc p = Except.ok { cols := ["a"], rows := [[Cell.vInt 1]] } := rfl
      rw [hr] at h
      exact Except.noConfusion h)

/-- C2 (counterexample): the claim states a rejected submission makes
run_athena_query report the failure message and return an empty ResultSet.
At this concrete service the call instead propagates the exception: it
returns no frame at all and emits no message. -/
theorem C2_counterexample :
    (run_athena_query badSubmitSvc "SELECT 2" "ccdataset" "s3://dku-project/Athena Output/" 5).outcome
      ≠ Outcome.ok emptyDataFrame
    ∧ (run_athena_query badSubmitSvc "SELECT 2" "ccdataset" "s3://dku-project/Athena Output/" 5).errors
      = [] := by
  constructor
  · intro h; exact Outcome.noConfusion h
  · rfl

/-- C2 (amended): when the submit call is rejected, run_athena_query
propagates the rejection to its caller as an exception, with zero status
checks, zero sleeps, zero result-file fetches and no side-channel message
(the claimed empty-frame-plus-message return does not happen). -/
theorem C2_submit_rejected_propagates (svc : AthenaService) (q db s3 : String)
    (fuel : Nat) (e : String) (h : svc.submit q db s3 = Except.error e) :
    run_athena_query svc q db s3 fuel =
      { outcome := Outcome.exn e, statusChecks := 0, sleeps := 0, fetches := 0,
        errors := [] } :=
  run_submit_error svc q db s3 fuel e h

/-- C2 (witness): the amended theorem applied at the rejecting service. -/
theorem C2_witness :
    run_athena_query badSubmitSvc "SELECT 3" "ccdataset" "s3://dku-project/Athena Output/" 7 =
      { outcome := Outcome.exn "ClientError: AccessDeniedException",
        statusChecks := 0, sleeps := 0, fetches := 0, errors := [] } :=
  C2_submit_rejected_propagates badSubmitSvc "SELECT 3" "ccdataset"
    "s3://dku-project/Athena Output/" 7 "ClientError: AccessDeniedException" rfl

/-- C3: when the service reports RUNNING on the first k status checks and
SUCCEEDED on check k+1 (within the fuel), run_athena_query makes exactly
k+1 status checks and exactly one result-file fetch. -/
theorem C3_poll_then_single_fetch (svc : AthenaService) (q db s3 qid : String) (k fuel : Nat)
    (hsub : svc.submit q db s3 = Except.ok qid)
    (hrun : ∀ i, i < k → (svc.getStatus qid i).state = "RUNNING")
    (hst : (svc.getStatus qid k).state = "SUCCEEDED")
    (hk : k < fuel) :
    (run_athena_query svc q db s3 fuel).statusChecks = k + 1
    ∧ (run_athena_query svc q db s3 fuel).fetches = 1 := by
  have hpre : ∀ i, i < k → isTerminalState (svc.getStatus qid i).state = false := by
    intro i hi
    rw [hrun i hi]
    rfl
  have h := run_poll_succeeded svc q db s3 qid k fuel hsub hpre hst hk
  rw [h]
  constructor <;> (split <;> rfl)

/-- C3 (witness): the service reporting RUNNING twice then SUCCEEDED makes
three status checks and one fetch. -/
theorem C3_witness :
    (run_athena_query svcPollTwice "q" "ccdataset" "s3://dku-project/Athena Output/" 10).statusChecks = 3
    ∧ (run_athena_query svcPollTwice "q" "ccdataset" "s3://dku-project/Athena Output/" 10).fetches = 1 :=
  C3_poll_then_single_fetch svcPollTwice "q" "ccdataset" "s3://dku-project/Athena Output/"
    "qid-runs" 2 10 rfl
    (by intro i hi; interval_cases i <;> rfl)
    rfl (by omega)

/-- C4: when the first terminal status (at check k+1, within the fuel) is
FAILED or CANCELLED, run_athena_query emits the StateChangeReason provided
by the service through st.error and returns pd.DataFrame(), fetching no
result file. -/
theorem C4_terminal_failure_reported (svc : AthenaService) (q db s3 qid : String) (k fuel : Nat)
    (hsub : svc.submit q db s3 = Except.ok qid)
    (hpre : ∀ i, i < k → isTerminalState (svc.getStatus qid i).state = false)
    (hfc : (svc.getStatus qid k).state = "FAILED" ∨ (svc.getStatus qid k).state = "CANCELLED")
    (hk : k < fuel) :
    run_athena_query svc q db s3 fuel =
      { outcome := Outcome.ok emptyDataFrame, statusChecks := k + 1, sleeps := k,
        fetches := 0,
        errors := ["Query Failed: " ++ (svc.getStatus qid k).stateChangeReason] } := by
  have hterm : isTerminalState (svc.getStatus qid k).state = true := by
    rcases hfc with h | h <;> simp [isTerminalState, h]
  have hns : (svc.getStatus qid k).state ≠ "SUCCEEDED" := by
    rcases hfc with h | h <;> simp [h]
  exact run_poll_not_succeeded svc q db s3 qid k fuel hsub hpre hterm hns hk

/-- C4 (witness): a query that runs once and then fails returns the empty
frame and reports the reason of the service. -/
theorem C4_witness :
    run_athena_query svcFailAfterOne "q" "ccdataset" "s3://out/" 9 =
      { outcome := Outcome.ok emptyDataFrame, statusChecks := 2, sleeps := 1, fetches := 0,
        errors := ["Query Failed: HIVE_BAD_DATA: line 17: mismatched column count"] } :=
  C4_terminal_failure_reported svcFailAfterOne "q" "ccdataset" "s3://out/" "qid-fail" 1 9 rfl
    (by intro i hi; interval_cases i; rfl)
    (Or.inl rfl) (by omega)

/-- C5: the poll loop checks status at a fixed one-unit interval and
terminates exactly when the service eventually reports a terminal state.
First conjunct: a service that never reports a terminal state makes the
loop run forever (for every fuel bound, the call is still polling, one
further check per unit of fuel, with no retry cap cutting it off).
Second conjunct: once a first terminal state appears at check k+1, the
call returns, having made exactly k+1 checks separated by exactly k
one-unit sleeps. -/
theorem C5_unbounded_fixed_interval_poll (svc : AthenaService) (q db s3 qid : String)
    (hsub : svc.submit q db s3 = Except.ok qid) :
    ((∀ i, isTerminalState (svc.getStatus qid i).state = false) →
        ∀ fuel, (run_athena_query svc q db s3 fuel).outcome = Outcome.diverged
          ∧ (run_athena_query svc q db s3 fuel).statusChecks = fuel
          ∧ (run_athena_query svc q db s3 fuel).sleeps = fuel)
    ∧ (∀ k, (∀ i, i < k → isTerminalState (svc.getStatus qid i).state = false) →
        isTerminalState (svc.getStatus qid k).state = true →
        ∀ fuel, k < fuel →
          (run_athena_query svc q db s3 fuel).outcome ≠ Outcome.diverged
          ∧ (run_athena_query svc q db s3 fuel).statusChecks = k + 1
          ∧ (run_athena_query svc q db s3 fuel).sleeps = k) := by
  constructor
  · intro h fuel
    rw [run_never_terminal svc q db s3 qid fuel hsub h]
    exact ⟨rfl, rfl, rfl⟩
  · intro k hpre hterm fuel hk
    by_cases hss : (svc.getStatus qid k).state = "SUCCEEDED"
    · have h := run_poll_succeeded svc q db s3 qid k fuel hsub hpre hss hk
      rw [h]
      refine ⟨?_, ?_, ?_⟩ <;> split <;> simp
    · have h := run_poll_not_succeeded svc q db s3 qid k fuel hsub hpre hterm hss hk
      rw [h]
      exact ⟨by simp, rfl, rfl⟩

/-- C5 (witness): at the always-RUNNING service the call is still polling
after 7 units of fuel, having made 7 checks and 7 sleeps. -/
theorem C5_witness :
    (run_athena_query svcAlwaysRunning "q" "ccdataset" "s3://out/" 7).outcome = Outcome.diverged
    ∧ (run_athena_query svcAlwaysRunning "q" "ccdataset" "s3://out/" 7).statusChecks = 7
    ∧ (run_athena_query svcAlwaysRunning "q" "ccdataset" "s3://out/" 7).sleeps = 7 :=
  (C5_unbounded_fixed_interval_poll svcAlwaysRunning "q" "ccdataset" "s3://out/"
    "qid-stuck" rfl).1 (fun _ => rfl) 7

/-- C6: in a render pass over a catalog where exactly one slot terminates
FAILED and every other slot succeeds with a non-empty frame, the pass
completes, the failed slot renders nothing, and all remaining slots render:
one failing query does not prevent the later independent slots from
executing and rendering. -/
theorem C6_failure_isolation (beh : String → StatusResponse) (store : String → Option String)
    (db s3 : String) (fuel : Nat) (qsL qsR : List String) (qf : String)
    (hfuel : 0 < fuel)
    (hok : ∀ q, q ∈ qsL ++ qsR → (beh q).state = "SUCCEEDED" ∧
        ∃ df, read_csv (oneShotService beh store) (beh q).outputLocation = Except.ok df
          ∧ df.empty = false)
    (hfail : (beh qf).state = "FAILED") :
    renderPass (oneShotService beh store) db s3 fuel (qsL ++ qf :: qsR)
      = PassResult.done (qsL.map (fun _ => true) ++ false :: qsR.map (fun _ => true)) := by
  induction qsL with
  | nil =>
      have hf := run_oneShot_failed beh store qf db s3 fuel hfail hfuel
      have hrest : renderPass (oneShotService beh store) db s3 fuel qsR
          = PassResult.done (qsR.map (fun _ => true)) := by
        apply renderPass_all_rendered
        intro p hp
        obtain ⟨hs, df, hr, hne⟩ := hok p (by simpa using hp)
        exact ⟨df, by rw [run_oneShot_succeeded beh store p db s3 fuel df hs hr hfuel], hne⟩
      simp [renderPass, hf, hrest, consFlag, emptyDataFrame, DataFrame.empty]
  | cons q qsT ih =>
      obtain ⟨hs, df, hr, hne⟩ := hok q (by simp)
      have h1 := run_oneShot_succeeded beh store q db s3 fuel df hs hr hfuel
      have ih2 := ih (fun p hp => hok p (by simp at hp ⊢; tauto))
      simp [renderPass, h1, ih2, consFlag, hne]

/-- C6 (witness): a three-slot catalog where the middle query fails still
renders the first and third slots. -/
theorem C6_witness :
    renderPass (oneShotService behWit storeWit) "ccdataset" "s3://out/" 2
      ["q-daily", "q-region", "q-city"]
      = PassResult.done [true, false, true] :=
  C6_failure_isolation behWit storeWit "ccdataset" "s3://out/" 2 ["q-daily"] ["q-city"]
    "q-region" (by omega)
    (by
      intro p hp
      have hp2 : p = "q-daily" ∨ p = "q-city" := by simpa using hp
      rcases hp2 with rfl | rfl
      · exact ⟨rfl,
          { cols := ["day", "revenue"],
            rows := [[Cell.vStr "2024-01-01", Cell.vInt 100],
                     [Cell.vStr "2024-01-02", Cell.vInt 150]] },
          rfl, rfl⟩
      · exact ⟨rfl,
          { cols := ["city", "customer_count"],
            rows := [[Cell.vStr "Pune", Cell.vInt 40],
                     [Cell.vStr "Delhi", Cell.vInt 25]] },
          rfl, rfl⟩)
    rfl

/-- C7: a slot whose query returns a frame with zero rows renders nothing
(the `if not df.empty:` guard is false) and does not fault: the pass over
the remaining catalog continues exactly as it would without this slot,
with only a false flag recorded for it and no placeholder. -/
theorem C7_empty_result_skip (svc : AthenaService) (db s3 q : String) (fuel : Nat)
    (qs : List String) (df : DataFrame)
    (hrun : (run_athena_query svc q db s3 fuel).outcome = Outcome.ok df)
    (hrows : df.rows = []) :
    slotRenders svc q db s3 fuel = false
    ∧ renderPass svc db s3 fuel (q :: qs) = consFlag false (renderPass svc db s3 fuel qs) := by
  have hemp : df.empty = true := by simp [DataFrame.empty, hrows]
  constructor
  · simp [slotRenders, hrun, hemp]
  · simp [renderPass, hrun, hemp]

/-- C7 (witness): a successful query whose result file holds only a header
row yields a zero-row frame; its slot is skipped and the pass goes on. -/
theorem C7_witness :
    slotRenders svcEmptyResult "qe" "ccdataset" "s3://out/" 1 = false
    ∧ renderPass svcEmptyResult "ccdataset" "s3://out/" 1 ["qe", "q0"]
      = consFlag false (renderPass svcEmptyResult "ccdataset" "s3://out/" 1 ["q0"]) :=
  C7_empty_result_skip svcEmptyResult "ccdataset" "s3://out/" "qe" 1 ["q0"]
    { cols := ["day", "revenue"], rows := [] } rfl rfl

/-- C8: on a SUCCEEDED terminal status, run_athena_query reads the result
file at the output location carried in the terminal status response of the
service — the hypotheses constrain storage only at that location, not at
the staging prefix passed in the request — and returns the frame parsed
from that comma-separated file, header row as column names. -/
theorem C8_fetch_from_status_location (svc : AthenaService) (q db s3 qid loc : String)
    (k fuel : Nat) (df : DataFrame)
    (hsub : svc.submit q db s3 = Except.ok qid)
    (hpre : ∀ i, i < k → isTerminalState (svc.getStatus qid i).state = false)
    (hst : (svc.getStatus qid k).state = "SUCCEEDED")
    (hloc : (svc.getStatus qid k).outputLocation = loc)
    (hread : read_csv svc loc = Except.ok df)
    (hk : k < fuel) :
    run_athena_query svc q db s3 fuel =
      { outcome := Outcome.ok df, statusChecks := k + 1, sleeps := k, fetches := 1,
        errors := [] } := by
  have h := run_poll_succeeded svc q db s3 qid k fuel hsub hpre hst hk
  rw [h, hloc, hread]

/-- C8 (witness): the service stages nothing at the requested prefix
`s3://dku-project/Athena Output/` but reports the generated file
`.../abc-123.csv` in its status response; the call returns the frame
parsed from that file, with the header as column names and the integer
column typed as integers. -/
theorem C8_witness :
    run_athena_query svc8 "q" "ccdataset" "s3://dku-project/Athena Output/" 4 =
      { outcome := Outcome.ok
          { cols := ["payment_method", "revenue"],
            rows := [[Cell.vStr "card", Cell.vInt 900], [Cell.vStr "cash", Cell.vInt 450]] },
        statusChecks := 1, sleeps := 0, fetches := 1, errors := [] } :=
  C8_fetch_from_status_location svc8 "q" "ccdataset" "s3://dku-project/Athena Output/"
    "qid-ok" "s3://dku-project/Athena Output/abc-123.csv" 0 4
    { cols := ["payment_method", "revenue"],
      rows := [[Cell.vStr "card", Cell.vInt 900], [Cell.vStr "cash", Cell.vInt 450]] }
    rfl (fun i hi => absurd hi (Nat.not_lt_zero i)) rfl rfl rfl (by omega)

/-- C9 (spec-modelled): after the `astype(str)` normalization of the
store_id column — modelled from the spec, since the bar-chart variant of
the stores slot lives in the second dashboard script, absent from `src/` —
the store_id axis column consists of string-like category cells, the
decimal renderings of the original integers in unchanged order; on the
spec example [101, 215, 3] the column becomes ["101", "215", "3"]. -/
theorem C9_store_id_categorical :
    (∀ df : DataFrame,
        (astypeStr df "store_id").column "store_id"
          = (df.column "store_id").map Cell.asStr
        ∧ ∀ c ∈ (astypeStr df "store_id").column "store_id", c.isStr = true)
    ∧ (astypeStr exStoresDf "store_id").column "store_id"
        = [Cell.vStr "101", Cell.vStr "215", Cell.vStr "3"] := by
  constructor
  · intro df
    have hcol : (astypeStr df "store_id").column "store_id"
        = (df.column "store_id").map Cell.asStr := by
      cases h : df.cols.indexOf? "store_id" with
      | none => simp [astypeStr, DataFrame.column, h]
      | some j =>
          simp only [astypeStr, DataFrame.column, h, List.map_map]
          apply List.map_congr_left
          intro r _
          exact enumMap_getD_asStr r j
    refine ⟨hcol, ?_⟩
    intro c hc
    rw [hcol] at hc
    obtain ⟨c0, _, rfl⟩ := List.mem_map.mp hc
    cases c0 <;> rfl
  · rfl

/-- C9 (witness): the coerced cell "101" drawn from the normalized example
column is string-like. -/
theorem C9_witness : Cell.isStr (Cell.vStr "101") = true :=
  (C9_store_id_categorical.1 exStoresDf).2 (Cell.vStr "101") (by decide)

/-- C10: the frame returned on the terminal-failure path is
`pd.DataFrame()`: it has zero rows and zero columns, its `empty` test is
true, and the non-empty render guard therefore skips the slot of a failed
query exactly as it skips a zero-row successful one. -/
theorem C10_failure_frame_empty (svc : AthenaService) (q db s3 qid : String) (k fuel : Nat)
    (hsub : svc.submit q db s3 = Except.ok qid)
    (hpre : ∀ i, i < k → isTerminalState (svc.getStatus qid i).state = false)
    (hterm : isTerminalState (svc.getStatus qid k).state = true)
    (hns : (svc.getStatus qid k).state ≠ "SUCCEEDED")
    (hk : k < fuel) :
    (run_athena_query svc q db s3 fuel).outcome = Outcome.ok emptyDataFrame
    ∧ emptyDataFrame.rows.length = 0
    ∧ emptyDataFrame.cols.length = 0
    ∧ emptyDataFrame.empty = true
    ∧ slotRenders svc q db s3 fuel = false := by
  have h := run_poll_not_succeeded svc q db s3 qid k fuel hsub hpre hterm hns hk
  refine ⟨by rw [h], rfl, rfl, rfl, ?_⟩
  simp [slotRenders, h, emptyDataFrame, DataFrame.empty]

/-- C10 (witness): a CANCELLED query returns the zero-row, zero-column
frame and its slot does not render. -/
theorem C10_witness :
    (run_athena_query svcCancelled "q" "ccdataset" "s3://out/" 3).outcome
      = Outcome.ok emptyDataFrame
    ∧ emptyDataFrame.rows.length = 0
    ∧ emptyDataFrame.cols.length = 0
    ∧ emptyDataFrame.empty = true
    ∧ slotRenders svcCancelled "q" "ccdataset" "s3://out/" 3 = false :=
  C10_failure_frame_empty svcCancelled "q" "ccdataset" "s3://out/" "qid-c" 0 3 rfl
    (fun i hi => absurd hi (Nat.not_lt_zero i)) rfl (by decide) (by omega)
